import Mathlib

/-!
Shallow embedding of the HealthAI record-management API and dashboard
aggregation layer.

Sources embedded:
- `src/lib/supabase.ts` (patient dashboard segment): `getLatestVitals`,
  `calculateHealthScore`.
- `src/app/api/users/update-login/route.ts` (four concatenated route
  segments): POST update-login, GET users, POST users upsert,
  GET users/{wallet}, GET/POST health-records.
- `src/unnamed/part_001`: GET/POST anemia-detection.
- `src/unnamed/part_002`: GET/POST medical-records.

Modelling conventions:
- JavaScript numbers are modelled as rationals (`ℚ`); all numeric
  constants in the source (60, 100, 36, 37.5, 0.5, 40) are exactly
  representable, so no floating-point rounding is involved in any
  compared value.
- Timestamps (`new Date().toISOString()`, row `created_at`) are modelled
  as an abstract clock value `now : Nat` passed to each handler.
- `null`/`undefined` JSON fields are `Option` values; JavaScript string
  truthiness (`if (x)`) is `jsTruthy` (false on `null` and on `""`).
- The hosted database client (external dependency, not repository code)
  is modelled per its observable contract: a table is a list of rows,
  `.eq` is an equality filter, `.order(col, desc)` is a sort,
  `.insert` appends, `.update` patches matching rows, and `.single()`
  yields the row when exactly one is selected and the not-found
  sentinel (error code PGRST116) otherwise.  Where a handler only
  branches on the outcome of one gateway call, that outcome is passed
  in as an explicit argument (`DbSingle`, `InsertResult`).
- The base64 encoding of the uploaded image in the anemia route is
  abstracted to the identity on the opaque payload string; no claim
  inspects the stored `image_data`.
-/

namespace HealthAI

/-- JavaScript truthiness of a nullable string: `null` and `""` are falsy. -/
def jsTruthy : Option String → Bool
  | none => false
  | some s => s != ""

/-- Row of the `health_records` table (fields inserted by the
health-records POST handler plus generated id and timestamp). -/
structure HealthRecord where
  id : Nat
  patient_id : Option String
  heart_rate : Option ℚ
  blood_pressure : Option String
  temperature : Option ℚ
  weight : Option ℚ
  height : Option ℚ
  recorded_at : Nat
deriving DecidableEq

/-- Row of the `anemia_analyses` table. -/
structure AnemiaAnalysis where
  id : Nat
  patient_id : Option String
  analysis_type : Option String
  prediction : String
  confidence : ℚ
  roi_detected : Bool
  image_data : String
  created_at : Nat
deriving DecidableEq

/-- Row of the `medical_records` table. -/
structure MedicalRecordRow where
  id : Nat
  patient_id : Option String
  doctor_id : Option String
  record_type : Option String
  title : Option String
  description : Option String
  file_name : Option String
  file_size : Option Nat
  ipfs_hash : Option String
  status : Option String
  created_at : Nat
deriving DecidableEq

/-- Row of the `users` table (schema from the `Database` type in
`src/lib/supabase.ts`). -/
structure UserRow where
  id : Nat
  wallet_address : String
  name : String
  email : String
  role : String
  specialization : Option String
  license_number : Option String
  hospital : Option String
  is_verified : Bool
  created_at : Nat
  last_login_at : Option Nat
deriving DecidableEq

/-! ## Derived-view builder (patient dashboard, `src/lib/supabase.ts` lines 129-158) -/

/-- `getLatestVitals`: `if (healthRecords.length === 0) return null;
return healthRecords[0]`. -/
def getLatestVitals (healthRecords : List HealthRecord) : Option HealthRecord :=
  match healthRecords with
  | [] => none
  | r :: _ => some r

/-- The condition `latestVitals.heart_rate && latestVitals.heart_rate >= 60
&& latestVitals.heart_rate <= 100`; a `null` or zero heart rate is falsy. -/
def heartRateNormal (hr : Option ℚ) : Bool :=
  match hr with
  | none => false
  | some h => decide (h ≠ 0) && decide ((60 : ℚ) ≤ h) && decide (h ≤ (100 : ℚ))

/-- The condition `latestVitals.temperature && latestVitals.temperature >= 36
&& latestVitals.temperature <= 37.5`. -/
def temperatureNormal (t : Option ℚ) : Bool :=
  match t with
  | none => false
  | some c => decide (c ≠ 0) && decide ((36 : ℚ) ≤ c) && decide (c ≤ (37.5 : ℚ))

/-- `calculateHealthScore`: base 70; all three +10 bonuses, including the
anemia one, sit inside `if (latestVitals) { ... }`; result is
`Math.min(score, 100)`. -/
def calculateHealthScore (healthRecords : List HealthRecord)
    (anemiaAnalyses : List AnemiaAnalysis) : ℚ :=
  let score : ℚ := 70
  let score :=
    match getLatestVitals healthRecords with
    | none => score
    | some latestVitals =>
      let score := if heartRateNormal latestVitals.heart_rate then score + 10 else score
      let score := if temperatureNormal latestVitals.temperature then score + 10 else score
      let score :=
        if (anemiaAnalyses.find? (fun a => a.prediction == "Non-Anemic")).isSome
        then score + 10 else score
      score
  min score 100

/-! ## Sample concrete rows used by counterexamples and witnesses -/

/-- A health record with in-range vitals (heart rate 75, temperature 36.5). -/
def sampleVitals : HealthRecord :=
  { id := 1, patient_id := some "p1", heart_rate := some 75
    blood_pressure := some "120/80", temperature := some 36.5
    weight := some 70, height := some 175, recorded_at := 100 }

/-- An anemia analysis whose prediction is Non-Anemic. -/
def sampleNonAnemic : AnemiaAnalysis :=
  { id := 1, patient_id := some "p1", analysis_type := some "eye_anemia"
    prediction := "Non-Anemic", confidence := 90, roi_detected := true
    image_data := "", created_at := 100 }

/-! ## Basic score lemmas -/

lemma calculateHealthScore_nil (as : List AnemiaAnalysis) :
    calculateHealthScore [] as = 70 := by
  simp [calculateHealthScore, getLatestVitals]
  norm_num

lemma calculateHealthScore_cons (v : HealthRecord) (recs : List HealthRecord)
    (as : List AnemiaAnalysis) :
    calculateHealthScore (v :: recs) as =
      min (70 + (if heartRateNormal v.heart_rate then (10 : ℚ) else 0)
             + (if temperatureNormal v.temperature then (10 : ℚ) else 0)
             + (if (as.find? (fun a => a.prediction == "Non-Anemic")).isSome
                then (10 : ℚ) else 0)) 100 := by
  simp only [calculateHealthScore, getLatestVitals]
  split_ifs <;> norm_num

lemma find?_append_isSome {α : Type} {p : α → Bool} {l₁ l₂ : List α}
    (h : (l₁.find? p).isSome = true) : ((l₁ ++ l₂).find? p).isSome = true := by
  simp only [List.find?_isSome] at h ⊢
  obtain ⟨x, hx, hpx⟩ := h
  exact ⟨x, List.mem_append_left _ hx, hpx⟩

/-! ## Claim C6: latestVitals -/

/-- C6: `getLatestVitals` applied to the empty list returns `none`; applied to
any non-empty list it returns the first element regardless of field contents,
with no re-sorting. -/
theorem claim_C6 :
    getLatestVitals [] = none ∧
    ∀ (r : HealthRecord) (rs : List HealthRecord), getLatestVitals (r :: rs) = some r :=
  ⟨rfl, fun _ _ => rfl⟩

/-! ## Claim C5: health score monotonicity and range -/

/-- C5: `calculateHealthScore` is monotonically non-decreasing as more
analyses (in particular Non-Anemic ones) are appended while the vitals list is
held fixed, and its result always lies in [70, 100] inclusive. -/
theorem claim_C5 (recs : List HealthRecord) (as bs : List AnemiaAnalysis) :
    calculateHealthScore recs as ≤ calculateHealthScore recs (as ++ bs) ∧
    70 ≤ calculateHealthScore recs as ∧ calculateHealthScore recs as ≤ 100 := by
  cases recs with
  | nil =>
    rw [calculateHealthScore_nil, calculateHealthScore_nil]
    norm_num
  | cons v t =>
    rw [calculateHealthScore_cons, calculateHealthScore_cons]
    have hxy : (if (as.find? (fun a => a.prediction == "Non-Anemic")).isSome
                then (10 : ℚ) else 0) ≤
               (if ((as ++ bs).find? (fun a => a.prediction == "Non-Anemic")).isSome
                then (10 : ℚ) else 0) := by
      cases h3 : (as.find? (fun a => a.prediction == "Non-Anemic")).isSome with
      | true => simp [h3, find?_append_isSome h3]
      | false => split_ifs <;> simp_all
    refine ⟨min_le_min (add_le_add_left hxy _) le_rfl, le_min ?_ (by norm_num),
      min_le_right _ _⟩
    split_ifs <;> norm_num

/-! ## Claim C2: the anemia bonus is gated on the presence of vitals -/

/-- C2 counterexample: with no health records and one Non-Anemic analysis the
score is 70, not 80 as the claim states — the +10 anemia bonus is nested
inside the `if (latestVitals)` branch and is not independent of vitals. -/
theorem claim_C2_counterexample :
    calculateHealthScore [] [sampleNonAnemic] = 70 ∧
    calculateHealthScore [] [sampleNonAnemic] ≠ 80 := by
  rw [calculateHealthScore_nil]
  norm_num

/-- C2 amended: `calculateHealthScore` starts from the fixed baseline 70, but
the +10 for a Non-Anemic analysis applies only when at least one health
record exists; with no health records the score is 70 regardless of the
analyses, and with at least one health record a Non-Anemic analysis adds
exactly 10 over the score for the same vitals with no analyses. -/
theorem claim_C2_amended :
    (∀ as : List AnemiaAnalysis, calculateHealthScore [] as = 70) ∧
    (∀ (v : HealthRecord) (recs : List HealthRecord) (as : List AnemiaAnalysis),
      (as.find? (fun a => a.prediction == "Non-Anemic")).isSome = true →
      calculateHealthScore (v :: recs) as = calculateHealthScore (v :: recs) [] + 10) := by
  refine ⟨calculateHealthScore_nil, ?_⟩
  intro v recs as h3
  rw [calculateHealthScore_cons, calculateHealthScore_cons]
  simp only [h3, List.find?_nil, Option.isSome_none, Bool.false_eq_true, if_true, if_false]
  split_ifs <;> norm_num [min_def]

/-- C2 amended, witness: evaluated at one Non-Anemic analysis with and without
a vitals record. -/
theorem claim_C2_amended_witness :
    calculateHealthScore [] [sampleNonAnemic] = 70 ∧
    calculateHealthScore [sampleVitals] [sampleNonAnemic] =
      calculateHealthScore [sampleVitals] [] + 10 :=
  ⟨claim_C2_amended.1 [sampleNonAnemic],
   claim_C2_amended.2 sampleVitals [] [sampleNonAnemic] (by decide)⟩

/-! ## Users API (`src/app/api/users/update-login/route.ts`) -/

/-- Request body of the users upsert POST (profile fields). -/
structure ProfileBody where
  wallet_address : String
  name : String
  email : String
  role : String
  specialization : Option String
  license_number : Option String
  hospital : Option String
deriving DecidableEq

/-- Outcome of a gateway single-row select (`.single()`): a row, the
row-not-found sentinel (error code PGRST116), or any other store error. -/
inductive DbSingle (α : Type) where
  | row (a : α)
  | errNotFound
  | errOther
deriving DecidableEq

/-- `.select().single()` over an already-filtered row set: the row when
exactly one was selected, the PGRST116 sentinel (modelled as `none`)
otherwise. -/
def singleRowOf {α : Type} (rows : List α) : Option α :=
  match rows with
  | [u] => some u
  | _ => none

/-- Response of POST /users/update-login. -/
inductive LoginResp where
  | ok (user : UserRow)
  | missingWallet
  | failed
deriving DecidableEq

/-- POST /users/update-login: 400 when `wallet_address` is falsy; otherwise
update `last_login_at` on the rows matching the wallet, then
`.select().single()`; a sentinel from that select yields the 500 branch. -/
def updateLoginPOST (store : List UserRow) (wallet_address : Option String)
    (now : Nat) : List UserRow × LoginResp :=
  if !(jsTruthy wallet_address) then (store, .missingWallet)
  else
    let w := wallet_address.getD ""
    let store2 := store.map (fun u =>
      if u.wallet_address == w then { u with last_login_at := some now } else u)
    match singleRowOf (store2.filter (fun u => u.wallet_address == w)) with
    | some u => (store2, .ok u)
    | none => (store2, .failed)

/-- Response of the users GET handlers. -/
inductive UsersGetResp where
  | userResp (user : Option UserRow)
  | usersResp (users : List UserRow)
  | fetchFailed
deriving DecidableEq

/-- GET /users: with a truthy `wallet_address` query param, a single-row
lookup where only the PGRST116 sentinel is exempted from `throw`; otherwise
the list of all users. -/
def usersGET (walletAddress : Option String) (single : DbSingle UserRow)
    (allUsers : Except Unit (List UserRow)) : UsersGetResp :=
  if jsTruthy walletAddress then
    match single with
    | .row u => .userResp (some u)
    | .errNotFound => .userResp none
    | .errOther => .fetchFailed
  else
    match allUsers with
    | .ok users => .usersResp users
    | .error _ => .fetchFailed

/-- GET /users/{wallet}: single-row lookup by the path parameter, with the
PGRST116 sentinel exempted from `throw`. -/
def userByWalletGET (single : DbSingle UserRow) : UsersGetResp :=
  match single with
  | .row u => .userResp (some u)
  | .errNotFound => .userResp none
  | .errOther => .fetchFailed

/-- The patch applied by the upsert's update branch: profile fields,
`is_verified := body.role === "patient"`, and `last_login_at`; the wallet
address, id and creation time are not in the patch. -/
def patchProfile (body : ProfileBody) (now : Nat) (u : UserRow) : UserRow :=
  { u with name := body.name, email := body.email, role := body.role
           specialization := body.specialization
           license_number := body.license_number
           hospital := body.hospital
           is_verified := body.role == "patient"
           last_login_at := some now }

/-- The row inserted by the upsert's insert branch. -/
def newUserRow (body : ProfileBody) (now freshId : Nat) : UserRow :=
  { id := freshId, wallet_address := body.wallet_address, name := body.name
    email := body.email, role := body.role, specialization := body.specialization
    license_number := body.license_number, hospital := body.hospital
    is_verified := body.role == "patient", created_at := now
    last_login_at := none }

/-- Response of POST /users (upsert). -/
inductive UpsertResp where
  | updated (user : UserRow)
  | created (user : UserRow)
  | storeErr
deriving DecidableEq

/-- POST /users: look up by wallet with `.single()` (PGRST116 swallowed, so
`existingUser` is the row only when exactly one matches); if present, update
profile fields on the matching rows and re-select; otherwise insert a new
row. -/
def usersUpsertPOST (store : List UserRow) (body : ProfileBody)
    (now freshId : Nat) : List UserRow × UpsertResp :=
  let existingUser :=
    singleRowOf (store.filter (fun u => u.wallet_address == body.wallet_address))
  match existingUser with
  | some _ =>
    let store2 := store.map (fun u =>
      if u.wallet_address == body.wallet_address then patchProfile body now u else u)
    match singleRowOf (store2.filter (fun u => u.wallet_address == body.wallet_address)) with
    | some updatedUser => (store2, .updated updatedUser)
    | none => (store2, .storeErr)
  | none =>
    let newUser := newUserRow body now freshId
    (store ++ [newUser], .created newUser)

/-! ## List helper lemmas -/

lemma filter_map_comm {α : Type} (g : α → α) (p : α → Bool)
    (hg : ∀ u, p (g u) = p u) (l : List α) :
    (l.map g).filter p = (l.filter p).map g := by
  induction l with
  | nil => rfl
  | cons a t ih =>
    cases h : p a with
    | true => simp [List.filter_cons, hg a, h, ih]
    | false => simp [List.filter_cons, hg a, h, ih]

lemma map_eq_of_forall_eq {α : Type} {g : α → α} :
    ∀ {l : List α}, (∀ x ∈ l, g x = x) → l.map g = l := by
  intro l
  induction l with
  | nil => intro _; rfl
  | cons a t ih =>
    intro h
    simp only [List.map_cons, h a (List.mem_cons_self a t),
      ih (fun x hx => h x (List.mem_cons_of_mem a hx))]

lemma singleRowOf_eq_some {α : Type} {l : List α} {a : α}
    (h : singleRowOf l = some a) : l = [a] := by
  match l with
  | [] => simp [singleRowOf] at h
  | [u] => simp [singleRowOf] at h; rw [h]
  | u :: v :: t => simp [singleRowOf] at h

lemma singleRowOf_eq_none_of_le_one {α : Type} {l : List α}
    (h : singleRowOf l = none) (hlen : l.length ≤ 1) : l = [] := by
  match l with
  | [] => rfl
  | [u] => simp [singleRowOf] at h
  | u :: v :: t => simp at hlen

/-! ## Branch characterizations of the upsert handler -/

lemma usersUpsertPOST_insert (store : List UserRow) (body : ProfileBody)
    (now freshId : Nat)
    (h : singleRowOf (store.filter
        (fun u => u.wallet_address == body.wallet_address)) = none) :
    usersUpsertPOST store body now freshId =
      (store ++ [newUserRow body now freshId],
        .created (newUserRow body now freshId)) := by
  simp [usersUpsertPOST, h]

lemma usersUpsertPOST_update_ok (store : List UserRow) (body : ProfileBody)
    (now freshId : Nat) (u0 v : UserRow)
    (h : singleRowOf (store.filter
        (fun u => u.wallet_address == body.wallet_address)) = some u0)
    (h2 : singleRowOf ((store.map (fun u =>
        if u.wallet_address == body.wallet_address then patchProfile body now u
        else u)).filter (fun u => u.wallet_address == body.wallet_address)) = some v) :
    usersUpsertPOST store body now freshId =
      (store.map (fun u =>
        if u.wallet_address == body.wallet_address then patchProfile body now u
        else u), .updated v) := by
  simp only [usersUpsertPOST, h, h2]

lemma usersUpsertPOST_update_err (store : List UserRow) (body : ProfileBody)
    (now freshId : Nat) (u0 : UserRow)
    (h : singleRowOf (store.filter
        (fun u => u.wallet_address == body.wallet_address)) = some u0)
    (h2 : singleRowOf ((store.map (fun u =>
        if u.wallet_address == body.wallet_address then patchProfile body now u
        else u)).filter (fun u => u.wallet_address == body.wallet_address)) = none) :
    usersUpsertPOST store body now freshId =
      (store.map (fun u =>
        if u.wallet_address == body.wallet_address then patchProfile body now u
        else u), .storeErr) := by
  simp only [usersUpsertPOST, h, h2]

lemma patchProfile_wallet (body : ProfileBody) (now : Nat) (u : UserRow) :
    (patchProfile body now u).wallet_address = u.wallet_address := rfl

lemma patchFun_preserves_wallet (body : ProfileBody) (now : Nat) (w : String)
    (x : UserRow) :
    ((if x.wallet_address == body.wallet_address then patchProfile body now x
      else x).wallet_address == w) = (x.wallet_address == w) := by
  by_cases hx : (x.wallet_address == body.wallet_address) = true <;>
    simp [hx, patchProfile]

/-! ## Claim C9: the row-not-found sentinel is success, other failures 500 -/

/-- C9: for both single-row User lookups (GET /users with a wallet query
param and GET /users/{wallet}), the store's row-not-found sentinel yields a
success response with an absent user, never an error; any other gateway
failure yields the generic 500; a found row is returned as success. -/
theorem claim_C9 (w : String) (hw : w ≠ "")
    (allUsers : Except Unit (List UserRow)) :
    usersGET (some w) .errNotFound allUsers = .userResp none ∧
    usersGET (some w) .errOther allUsers = .fetchFailed ∧
    (∀ u, usersGET (some w) (.row u) allUsers = .userResp (some u)) ∧
    userByWalletGET .errNotFound = .userResp none ∧
    userByWalletGET .errOther = .fetchFailed ∧
    (∀ u, userByWalletGET (.row u) = .userResp (some u)) := by
  refine ⟨?_, ?_, fun u => ?_, rfl, rfl, fun u => rfl⟩ <;>
    simp [usersGET, jsTruthy, hw]

/-- C9 witness: evaluated at a concrete wallet string and gateway outcomes. -/
theorem claim_C9_witness :
    usersGET (some "0xabc") .errNotFound (.ok []) = .userResp none ∧
    userByWalletGET .errNotFound = .userResp none := by
  have h := claim_C9 "0xabc" (by decide) (.ok [])
  exact ⟨h.1, h.2.2.2.1⟩

/-! ## Claim C8: touchLogin frame and failure -/

/-- A sample existing user row on wallet 0xA. -/
def sampleUser : UserRow :=
  { id := 1, wallet_address := "0xA", name := "Alice", email := "a@x.y"
    role := "patient", specialization := none, license_number := none
    hospital := none, is_verified := true, created_at := 10
    last_login_at := none }

/-- C8: POST /users/update-login with an existing wallet updates only
`last_login_at` to the current instant, leaving every other field of the row
unchanged and every non-matching row untouched; when no User with that wallet
exists, the call fails with the error response and the store is unchanged. -/
theorem claim_C8 (store : List UserRow) (w : String) (now : Nat) (hw : w ≠ "") :
    (store.filter (fun x => x.wallet_address == w) = [] →
      updateLoginPOST store (some w) now = (store, .failed)) ∧
    (∀ u, store.filter (fun x => x.wallet_address == w) = [u] →
      ∃ v, (updateLoginPOST store (some w) now).2 = .ok v ∧
        v ∈ (updateLoginPOST store (some w) now).1 ∧
        v.last_login_at = some now ∧
        v.id = u.id ∧ v.wallet_address = u.wallet_address ∧ v.name = u.name ∧
        v.email = u.email ∧ v.role = u.role ∧
        v.specialization = u.specialization ∧
        v.license_number = u.license_number ∧ v.hospital = u.hospital ∧
        v.is_verified = u.is_verified ∧ v.created_at = u.created_at ∧
        (updateLoginPOST store (some w) now).1.filter
            (fun x => !(x.wallet_address == w)) =
          store.filter (fun x => !(x.wallet_address == w))) := by
  have htr : jsTruthy (some w) = true := by simp [jsTruthy, hw]
  have hgw : ∀ x : UserRow,
      ((if x.wallet_address == w then { x with last_login_at := some now }
        else x).wallet_address == w) = (x.wallet_address == w) := by
    intro x
    by_cases hx : (x.wallet_address == w) = true <;> simp [hx]
  constructor
  · intro h0
    have hall : ∀ x ∈ store, (x.wallet_address == w) = false := by
      intro x hx
      by_contra hc
      have hpx : (x.wallet_address == w) = true := by
        revert hc; cases x.wallet_address == w <;> simp
      have hmem : x ∈ store.filter (fun x => x.wallet_address == w) :=
        List.mem_filter.mpr ⟨hx, hpx⟩
      rw [h0] at hmem
      exact absurd hmem (List.not_mem_nil x)
    have hmap : store.map (fun x =>
        if x.wallet_address == w then { x with last_login_at := some now }
        else x) = store :=
      map_eq_of_forall_eq (fun x hx => by rw [hall x hx]; simp)
    simp only [updateLoginPOST, htr, Bool.not_true, Bool.false_eq_true,
      if_false, Option.getD_some, hmap, h0]
    rfl
  · intro u hu
    have humem : u ∈ store.filter (fun x => x.wallet_address == w) := by
      rw [hu]; exact List.mem_cons_self u []
    obtain ⟨hustore, hpu⟩ := List.mem_filter.mp humem
    have hcomm := filter_map_comm
      (fun x => if x.wallet_address == w then { x with last_login_at := some now }
                else x)
      (fun x => x.wallet_address == w) hgw store
    rw [hu] at hcomm
    simp only [List.map_cons, List.map_nil] at hcomm
    rw [if_pos hpu] at hcomm
    have hmemv : ({ u with last_login_at := some now } : UserRow) ∈
        store.map (fun x =>
          if x.wallet_address == w then { x with last_login_at := some now }
          else x) := by
      have hx : ({ u with last_login_at := some now } : UserRow) ∈
          (store.map (fun x =>
            if x.wallet_address == w then { x with last_login_at := some now }
            else x)).filter (fun x => x.wallet_address == w) := by
        rw [hcomm]; exact List.mem_cons_self _ []
      exact (List.mem_filter.mp hx).1
    refine ⟨{ u with last_login_at := some now }, ?_, ?_, rfl, rfl, rfl, rfl,
      rfl, rfl, rfl, rfl, rfl, rfl, rfl, ?_⟩
    · simp only [updateLoginPOST, htr, Bool.not_true, Bool.false_eq_true,
        if_false, Option.getD_some, hcomm]
      rfl
    · simp only [updateLoginPOST, htr, Bool.not_true, Bool.false_eq_true,
        if_false, Option.getD_some, hcomm]
      exact hmemv
    · simp only [updateLoginPOST, htr, Bool.not_true, Bool.false_eq_true,
        if_false, Option.getD_some, hcomm, singleRowOf]
      have hgnw : ∀ x : UserRow,
          (!((if x.wallet_address == w then { x with last_login_at := some now }
              else x).wallet_address == w)) = (!(x.wallet_address == w)) := by
        intro x; rw [hgw x]
      rw [filter_map_comm
        (fun x : UserRow =>
          if x.wallet_address == w then { x with last_login_at := some now }
          else x)
        (fun x : UserRow => !(x.wallet_address == w)) hgnw store]
      exact map_eq_of_forall_eq (fun x hx => by
        have h2 := (List.mem_filter.mp hx).2
        have hfx : (x.wallet_address == w) = false := by
          revert h2; cases x.wallet_address == w <;> simp
        rw [hfx]; simp)

/-- C8 witness: a one-row store on wallet 0xA, updated at instant 42. -/
theorem claim_C8_witness :
    ∃ v, (updateLoginPOST [sampleUser] (some "0xA") 42).2 = .ok v ∧
      v ∈ (updateLoginPOST [sampleUser] (some "0xA") 42).1 ∧
      v.last_login_at = some 42 ∧
      v.id = sampleUser.id ∧ v.wallet_address = sampleUser.wallet_address ∧
      v.name = sampleUser.name ∧ v.email = sampleUser.email ∧
      v.role = sampleUser.role ∧
      v.specialization = sampleUser.specialization ∧
      v.license_number = sampleUser.license_number ∧
      v.hospital = sampleUser.hospital ∧
      v.is_verified = sampleUser.is_verified ∧
      v.created_at = sampleUser.created_at ∧
      (updateLoginPOST [sampleUser] (some "0xA") 42).1.filter
          (fun x => !(x.wallet_address == "0xA")) =
        [sampleUser].filter (fun x => !(x.wallet_address == "0xA")) :=
  (claim_C8 [sampleUser] "0xA" 42 (by decide)).2 sampleUser (by decide)

/-! ## Claim C10: both upsert branches force is_verified from the role -/

/-- A previously verified doctor row on wallet 0xD. -/
def sampleDoctor : UserRow :=
  { id := 2, wallet_address := "0xD", name := "Dana", email := "d@x.y"
    role := "doctor", specialization := some "cardiology"
    license_number := some "L1", hospital := some "General"
    is_verified := true, created_at := 20, last_login_at := none }

/-- An upsert body re-submitting the doctor profile on wallet 0xD. -/
def sampleDoctorBody : ProfileBody :=
  { wallet_address := "0xD", name := "Dana", email := "d@x.y"
    role := "doctor", specialization := some "cardiology"
    license_number := some "L1", hospital := some "General" }

/-- C10: every successful upsert response — update branch or insert branch —
carries `is_verified = (role == "patient")`, and (when the wallet key is
unique in the store) every stored row on the submitted wallet ends up with
`is_verified = (role == "patient")`; in particular a previously verified
doctor is reset to unverified by any subsequent upsert. -/
theorem claim_C10 (store : List UserRow) (body : ProfileBody)
    (now freshId : Nat) :
    (∀ v, ((usersUpsertPOST store body now freshId).2 = .updated v ∨
           (usersUpsertPOST store body now freshId).2 = .created v) →
      v.is_verified = (body.role == "patient")) ∧
    ((store.filter (fun u => u.wallet_address == body.wallet_address)).length ≤ 1 →
      ∀ r ∈ (usersUpsertPOST store body now freshId).1,
        r.wallet_address = body.wallet_address →
        r.is_verified = (body.role == "patient")) := by
  have hpres : ∀ x : UserRow,
      ((if x.wallet_address == body.wallet_address
        then patchProfile body now x else x).wallet_address ==
        body.wallet_address) = (x.wallet_address == body.wallet_address) :=
    patchFun_preserves_wallet body now body.wallet_address
  constructor
  · intro v hv
    rcases hcase : singleRowOf (store.filter
        (fun u => u.wallet_address == body.wallet_address)) with _ | u0
    · rw [usersUpsertPOST_insert store body now freshId hcase] at hv
      rcases hv with h | h
      · simp at h
      · have hv2 : newUserRow body now freshId = v := by
          simpa using h
        rw [← hv2]; rfl
    · rcases hcase2 : singleRowOf ((store.map (fun u =>
          if u.wallet_address == body.wallet_address then patchProfile body now u
          else u)).filter (fun u => u.wallet_address == body.wallet_address))
          with _ | v0
      · rw [usersUpsertPOST_update_err store body now freshId u0 hcase hcase2] at hv
        rcases hv with h | h <;> simp at h
      · rw [usersUpsertPOST_update_ok store body now freshId u0 v0 hcase hcase2] at hv
        have hv2 : v0 = v := by
          rcases hv with h | h
          · simpa using h
          · simp at h
        have hlist := singleRowOf_eq_some hcase2
        have hv0mem : v0 ∈ (store.map (fun u =>
            if u.wallet_address == body.wallet_address then patchProfile body now u
            else u)).filter (fun u => u.wallet_address == body.wallet_address) := by
          rw [hlist]; exact List.mem_cons_self _ []
        obtain ⟨hv0map, hpv0⟩ := List.mem_filter.mp hv0mem
        obtain ⟨x, hx, hgx⟩ := List.mem_map.mp hv0map
        have hpx : (x.wallet_address == body.wallet_address) = true := by
          rw [← hpres x, hgx]; exact hpv0
        rw [← hv2, ← hgx, if_pos hpx]
        rfl
  · intro hlen r hr hrw
    have hprw : (r.wallet_address == body.wallet_address) = true := by
      simp [hrw]
    rcases hcase : singleRowOf (store.filter
        (fun u => u.wallet_address == body.wallet_address)) with _ | u0
    · rw [usersUpsertPOST_insert store body now freshId hcase] at hr
      rcases List.mem_append.mp hr with h | h
      · have hnil := singleRowOf_eq_none_of_le_one hcase hlen
        have : r ∈ store.filter (fun u => u.wallet_address == body.wallet_address) :=
          List.mem_filter.mpr ⟨h, hprw⟩
        rw [hnil] at this
        exact absurd this (List.not_mem_nil r)
      · have : r = newUserRow body now freshId := by simpa using h
        rw [this]; rfl
    · rcases hcase2 : singleRowOf ((store.map (fun u =>
          if u.wallet_address == body.wallet_address then patchProfile body now u
          else u)).filter (fun u => u.wallet_address == body.wallet_address))
          with _ | v0
      all_goals
        first
        | rw [usersUpsertPOST_update_err store body now freshId u0 hcase hcase2] at hr
        | rw [usersUpsertPOST_update_ok store body now freshId u0 v0 hcase hcase2] at hr
      all_goals
        obtain ⟨x, hx, hgx⟩ := List.mem_map.mp hr
      all_goals
        have hpx : (x.wallet_address == body.wallet_address) = true := by
          rw [← hpres x, hgx]; exact hprw
      all_goals
        rw [← hgx, if_pos hpx]
      all_goals rfl

/-- C10 witness: re-upserting the verified doctor's profile resets the stored
verification flag to false. -/
theorem claim_C10_witness :
    (patchProfile sampleDoctorBody 50 sampleDoctor).is_verified = false := by
  have h1 : (usersUpsertPOST [sampleDoctor] sampleDoctorBody 50 3).2 =
      .updated (patchProfile sampleDoctorBody 50 sampleDoctor) := by decide
  have h2 := (claim_C10 [sampleDoctor] sampleDoctorBody 50 3).1
    (patchProfile sampleDoctorBody 50 sampleDoctor) (Or.inl h1)
  exact h2.trans (by decide)

/-! ## Claim C4: double upsert on one wallet -/

/-- First-call profile body for the double-upsert scenario. -/
def sampleBody1 : ProfileBody :=
  { wallet_address := "0xW", name := "Alice", email := "a@x.y"
    role := "patient", specialization := none, license_number := none
    hospital := none }

/-- Second-call profile body: same wallet, different name. -/
def sampleBody2 : ProfileBody :=
  { wallet_address := "0xW", name := "Alicia", email := "a@x.y"
    role := "patient", specialization := none, license_number := none
    hospital := none }

/-- C4: calling the users upsert twice with the same wallet address and
different names, starting from a store with no row on that wallet, leaves
exactly one stored row on that wallet; its name is the second call's value,
its wallet address is the submitted one, and its creation time is the first
call's instant (the update patch touches only profile fields and last-login
time). -/
theorem claim_C4 (store : List UserRow) (b1 b2 : ProfileBody)
    (t1 t2 id1 id2 : Nat)
    (hw : b2.wallet_address = b1.wallet_address) (_hn : b1.name ≠ b2.name)
    (h0 : store.filter (fun u => u.wallet_address == b1.wallet_address) = []) :
    ∃ u, (usersUpsertPOST (usersUpsertPOST store b1 t1 id1).1 b2 t2 id2).1.filter
          (fun x => x.wallet_address == b1.wallet_address) = [u] ∧
      u.name = b2.name ∧ u.wallet_address = b1.wallet_address ∧
      u.created_at = t1 := by
  have h0' : singleRowOf (store.filter
      (fun u => u.wallet_address == b1.wallet_address)) = none := by
    rw [h0]; rfl
  have hstep1 := usersUpsertPOST_insert store b1 t1 id1 h0'
  have hs1 : (usersUpsertPOST store b1 t1 id1).1 =
      store ++ [newUserRow b1 t1 id1] := by rw [hstep1]
  have hpnu : ((newUserRow b1 t1 id1).wallet_address == b1.wallet_address)
      = true := by simp [newUserRow]
  have hfil1 : (store ++ [newUserRow b1 t1 id1]).filter
      (fun u => u.wallet_address == b1.wallet_address) = [newUserRow b1 t1 id1] := by
    rw [List.filter_append, h0, List.nil_append]
    simp [List.filter, hpnu]
  have hfe : (fun u : UserRow => u.wallet_address == b2.wallet_address) =
      (fun u : UserRow => u.wallet_address == b1.wallet_address) := by
    funext u; rw [hw]
  have hsingle : singleRowOf ((store ++ [newUserRow b1 t1 id1]).filter
      (fun u => u.wallet_address == b2.wallet_address)) =
      some (newUserRow b1 t1 id1) := by
    rw [hfe, hfil1]; rfl
  have hpres : ∀ x : UserRow,
      ((if x.wallet_address == b2.wallet_address
        then patchProfile b2 t2 x else x).wallet_address ==
        b2.wallet_address) = (x.wallet_address == b2.wallet_address) :=
    patchFun_preserves_wallet b2 t2 b2.wallet_address
  have hcomm := filter_map_comm
    (fun x : UserRow => if x.wallet_address == b2.wallet_address
      then patchProfile b2 t2 x else x)
    (fun x : UserRow => x.wallet_address == b2.wallet_address) hpres
    (store ++ [newUserRow b1 t1 id1])
  rw [hfe, hfil1] at hcomm
  simp only [List.map_cons, List.map_nil] at hcomm
  have hpnu2 : ((newUserRow b1 t1 id1).wallet_address == b2.wallet_address)
      = true := by rw [hw]; exact hpnu
  rw [if_pos hpnu2] at hcomm
  have hsingle2 : singleRowOf (((store ++ [newUserRow b1 t1 id1]).map
      (fun x : UserRow => if x.wallet_address == b2.wallet_address
        then patchProfile b2 t2 x else x)).filter
      (fun u => u.wallet_address == b2.wallet_address)) =
      some (patchProfile b2 t2 (newUserRow b1 t1 id1)) := by
    rw [hfe, hcomm]; rfl
  have hstep2 := usersUpsertPOST_update_ok (store ++ [newUserRow b1 t1 id1])
    b2 t2 id2 (newUserRow b1 t1 id1)
    (patchProfile b2 t2 (newUserRow b1 t1 id1)) hsingle hsingle2
  refine ⟨patchProfile b2 t2 (newUserRow b1 t1 id1), ?_, rfl, ?_, rfl⟩
  · rw [hs1, hstep2]
    exact hcomm
  · rw [patchProfile_wallet]
    rfl

/-- C4 witness: two concrete upserts on wallet 0xW starting from the empty
store. -/
theorem claim_C4_witness :
    ∃ u, (usersUpsertPOST (usersUpsertPOST [] sampleBody1 5 1).1
            sampleBody2 9 2).1.filter
          (fun x => x.wallet_address == sampleBody1.wallet_address) = [u] ∧
      u.name = sampleBody2.name ∧
      u.wallet_address = sampleBody1.wallet_address ∧
      u.created_at = 5 :=
  claim_C4 [] sampleBody1 sampleBody2 5 9 1 2 rfl (by decide) rfl

/-! ## Record listing GET handlers

Each builds a select ordered by the timestamp column descending, adds an
equality filter on `patient_id` only when the query parameter is truthy, and
returns the resulting rows. -/

/-- GET /medical-records (`src/unnamed/part_002` lines 4-31). -/
def medicalRecordsGET (store : List MedicalRecordRow) (patientId : Option String) :
    List MedicalRecordRow :=
  let filtered :=
    if jsTruthy patientId then
      store.filter (fun r => r.patient_id == some (patientId.getD ""))
    else store
  List.insertionSort (fun a b => b.created_at ≤ a.created_at) filtered

/-- GET /health-records (`route.ts` lines 158-184), ordered by `recorded_at`
descending. -/
def healthRecordsGET (store : List HealthRecord) (patientId : Option String) :
    List HealthRecord :=
  let filtered :=
    if jsTruthy patientId then
      store.filter (fun r => r.patient_id == some (patientId.getD ""))
    else store
  List.insertionSort (fun a b => b.recorded_at ≤ a.recorded_at) filtered

/-- GET /anemia-detection (`src/unnamed/part_001` lines 66-92). -/
def anemiaDetectionGET (store : List AnemiaAnalysis) (patientId : Option String) :
    List AnemiaAnalysis :=
  let filtered :=
    if jsTruthy patientId then
      store.filter (fun r => r.patient_id == some (patientId.getD ""))
    else store
  List.insertionSort (fun a b => b.created_at ≤ a.created_at) filtered

/-! ## Claim C7: filterless listings return the full collection -/

/-- C7: for each of the three record listings, calling with no `patient_id`
filter returns a permutation (the descending-timestamp ordering) of the full
stored collection — in particular the same length, never an artificially
empty set. -/
theorem claim_C7 (ms : List MedicalRecordRow) (hs : List HealthRecord)
    (as : List AnemiaAnalysis) :
    List.Perm (medicalRecordsGET ms none) ms ∧
    (medicalRecordsGET ms none).length = ms.length ∧
    List.Perm (healthRecordsGET hs none) hs ∧
    (healthRecordsGET hs none).length = hs.length ∧
    List.Perm (anemiaDetectionGET as none) as ∧
    (anemiaDetectionGET as none).length = as.length := by
  have h1 : List.Perm (medicalRecordsGET ms none) ms := by
    simp only [medicalRecordsGET, jsTruthy, Bool.false_eq_true, if_false]
    exact List.perm_insertionSort _ ms
  have h2 : List.Perm (healthRecordsGET hs none) hs := by
    simp only [healthRecordsGET, jsTruthy, Bool.false_eq_true, if_false]
    exact List.perm_insertionSort _ hs
  have h3 : List.Perm (anemiaDetectionGET as none) as := by
    simp only [anemiaDetectionGET, jsTruthy, Bool.false_eq_true, if_false]
    exact List.perm_insertionSort _ as
  exact ⟨h1, h1.length_eq, h2, h2.length_eq, h3, h3.length_eq⟩

/-! ## Record creation POST handlers -/

/-- Outcome of a gateway `.insert(...).select().single()` call. -/
inductive InsertResult (ρ : Type) where
  | ok (stored : ρ)
  | storeErr
deriving DecidableEq

/-- Observable outcome of a creation handler: the row sent to the gateway
insert when one was attempted, the HTTP status, and the returned payload. -/
structure PostOutcome (ι ρ : Type) where
  gatewayWrite : Option ι
  status : Nat
  payload : Option ρ
deriving DecidableEq

/-- JSON body of POST /medical-records; every field may be absent. -/
structure MedicalBody where
  patient_id : Option String
  doctor_id : Option String
  record_type : Option String
  title : Option String
  description : Option String
  file_name : Option String
  file_size : Option Nat
  ipfs_hash : Option String
deriving DecidableEq

/-- POST /medical-records (`src/unnamed/part_002` lines 33-61): no field is
validated; the body fields are shaped into a row and inserted directly;
200 on store success, 500 on store failure. -/
def medicalRecordsPOST (body : MedicalBody)
    (db : InsertResult MedicalRecordRow) : PostOutcome MedicalBody MedicalRecordRow :=
  let row : MedicalBody :=
    { patient_id := body.patient_id, doctor_id := body.doctor_id
      record_type := body.record_type, title := body.title
      description := body.description, file_name := body.file_name
      file_size := body.file_size, ipfs_hash := body.ipfs_hash }
  match db with
  | .ok stored => { gatewayWrite := some row, status := 200, payload := some stored }
  | .storeErr => { gatewayWrite := some row, status := 500, payload := none }

/-- JSON body of POST /health-records. -/
structure HealthBody where
  patient_id : Option String
  heart_rate : Option ℚ
  blood_pressure : Option String
  temperature : Option ℚ
  weight : Option ℚ
  height : Option ℚ
deriving DecidableEq

/-- POST /health-records (`route.ts` lines 186-212): no field is validated;
the body fields are shaped into a row and inserted directly. -/
def healthRecordsPOST (body : HealthBody)
    (db : InsertResult HealthRecord) : PostOutcome HealthBody HealthRecord :=
  let row : HealthBody :=
    { patient_id := body.patient_id, heart_rate := body.heart_rate
      blood_pressure := body.blood_pressure, temperature := body.temperature
      weight := body.weight, height := body.height }
  match db with
  | .ok stored => { gatewayWrite := some row, status := 200, payload := some stored }
  | .storeErr => { gatewayWrite := some row, status := 500, payload := none }

/-- Row sent to the gateway by the anemia-detection POST. -/
structure AnemiaInsertBody where
  patient_id : String
  analysis_type : String
  prediction : String
  confidence : ℚ
  roi_detected : Bool
  image_data : String
deriving DecidableEq

/-- POST /anemia-detection (`src/unnamed/part_001` lines 4-64): rejects with
a generic 400 "Missing required fields" when the image, the analysis type or
the patient id is falsy, before any gateway call; otherwise inserts a row
with a mocked prediction (`rand1 > 0.5` for "Anemic") and confidence
(`rand2 * 40 + 60`).  The base64 encoding of the image payload is abstracted
to the payload string itself, truncated to 1000 characters as in the source. -/
def anemiaDetectionPOST (image : Option String) (analysisType : Option String)
    (patientId : Option String) (rand1 rand2 : ℚ)
    (db : InsertResult AnemiaAnalysis) : PostOutcome AnemiaInsertBody AnemiaAnalysis :=
  if !image.isSome || !jsTruthy analysisType || !jsTruthy patientId then
    { gatewayWrite := none, status := 400, payload := none }
  else
    let mockPrediction := if rand1 > 0.5 then "Anemic" else "Non-Anemic"
    let mockConfidence := rand2 * 40 + 60
    let row : AnemiaInsertBody :=
      { patient_id := patientId.getD "", analysis_type := analysisType.getD ""
        prediction := mockPrediction, confidence := mockConfidence
        roi_detected := true, image_data := (image.getD "").take 1000 }
    match db with
    | .ok stored => { gatewayWrite := some row, status := 200, payload := some stored }
    | .storeErr => { gatewayWrite := some row, status := 500, payload := none }

/-! ## Claim C1: medical-records create does not validate title/record_type -/

/-- A medical-records body missing both title and record_type. -/
def sampleMedicalBodyMissing : MedicalBody :=
  { patient_id := some "p1", doctor_id := some "p1", record_type := none
    title := none, description := none, file_name := none, file_size := none
    ipfs_hash := none }

/-- A stored medical-records row as returned by the gateway. -/
def sampleStoredMedical : MedicalRecordRow :=
  { id := 7, patient_id := some "p1", doctor_id := some "p1"
    record_type := none, title := none, description := none
    file_name := none, file_size := none, ipfs_hash := none
    status := some "active", created_at := 100 }

/-- C1 counterexample: a create input missing both title and record_type is
not rejected with 400 — the handler performs the gateway insert and returns
200 on store success, so the persistence layer is reached. -/
theorem claim_C1_counterexample :
    (medicalRecordsPOST sampleMedicalBodyMissing (.ok sampleStoredMedical)).status = 200 ∧
    (medicalRecordsPOST sampleMedicalBodyMissing (.ok sampleStoredMedical)).status ≠ 400 ∧
    (medicalRecordsPOST sampleMedicalBodyMissing
      (.ok sampleStoredMedical)).gatewayWrite ≠ none := by
  refine ⟨rfl, ?_, ?_⟩ <;> simp [medicalRecordsPOST]

/-- C1 amended: the medical-records create performs no required-field
validation at all — every input, including one missing title or record_type,
is shaped into a row and sent to the gateway insert; the response is 200 with
the stored row on store success and 500 on store failure; 400 is never
returned by this handler. -/
theorem claim_C1_amended (body : MedicalBody) (db : InsertResult MedicalRecordRow) :
    (medicalRecordsPOST body db).gatewayWrite.isSome = true ∧
    (medicalRecordsPOST body db).status ≠ 400 ∧
    (∀ stored, db = .ok stored →
      (medicalRecordsPOST body db).status = 200 ∧
      (medicalRecordsPOST body db).payload = some stored) ∧
    (db = .storeErr → (medicalRecordsPOST body db).status = 500) := by
  cases db <;> simp [medicalRecordsPOST]

/-- C1 amended, witness: the no-title/no-type body with a successful store. -/
theorem claim_C1_amended_witness :
    (medicalRecordsPOST sampleMedicalBodyMissing (.ok sampleStoredMedical)).status = 200 ∧
    (medicalRecordsPOST sampleMedicalBodyMissing
      (.ok sampleStoredMedical)).payload = some sampleStoredMedical :=
  (claim_C1_amended sampleMedicalBodyMissing
    (.ok sampleStoredMedical)).2.2.1 sampleStoredMedical rfl

/-! ## Claim C3: required-field policy of health and anemia creation -/

/-- A health-records body with vitals but no patient_id. -/
def sampleHealthBodyNoPid : HealthBody :=
  { patient_id := none, heart_rate := some 72, blood_pressure := none
    temperature := none, weight := none, height := none }

/-- A stored health-records row as returned by the gateway. -/
def sampleStoredHealth : HealthRecord :=
  { id := 9, patient_id := none, heart_rate := some 72
    blood_pressure := none, temperature := none, weight := none
    height := none, recorded_at := 100 }

/-- C3 counterexample: a health-records create input missing patient_id is
not rejected — the gateway insert is performed and the call succeeds; and an
anemia-detection input containing only patient_id (no image, no analysis
type) is rejected with 400, so more than the owning patient reference is
required there. -/
theorem claim_C3_counterexample :
    (healthRecordsPOST sampleHealthBodyNoPid (.ok sampleStoredHealth)).status = 200 ∧
    (healthRecordsPOST sampleHealthBodyNoPid
      (.ok sampleStoredHealth)).gatewayWrite ≠ none ∧
    (anemiaDetectionPOST none none (some "p1") (3/10) (1/2)
      (.ok sampleNonAnemic)).status = 400 := by
  refine ⟨rfl, ?_, rfl⟩
  simp [healthRecordsPOST]

/-- C3 amended: the health-records create performs no validation — every
input, with or without patient_id, is sent to the gateway insert and 400 is
never returned; the anemia-detection create requires image, analysis_type
and patient_id together, rejecting with a generic 400 before any gateway
write when any of them is falsy, and inserting otherwise. -/
theorem claim_C3_amended :
    (∀ (body : HealthBody) (db : InsertResult HealthRecord),
      (healthRecordsPOST body db).gatewayWrite.isSome = true ∧
      (healthRecordsPOST body db).status ≠ 400) ∧
    (∀ (image analysisType patientId : Option String) (r1 r2 : ℚ)
        (db : InsertResult AnemiaAnalysis),
      (image.isSome = false ∨ jsTruthy analysisType = false ∨
          jsTruthy patientId = false →
        anemiaDetectionPOST image analysisType patientId r1 r2 db =
          { gatewayWrite := none, status := 400, payload := none }) ∧
      (image.isSome = true ∧ jsTruthy analysisType = true ∧
          jsTruthy patientId = true →
        (anemiaDetectionPOST image analysisType patientId r1 r2 db).gatewayWrite.isSome
            = true ∧
        (anemiaDetectionPOST image analysisType patientId r1 r2 db).status ≠ 400)) := by
  constructor
  · intro body db
    cases db <;> simp [healthRecordsPOST]
  · intro image analysisType patientId r1 r2 db
    constructor
    · intro h
      have hcond : (!image.isSome || !jsTruthy analysisType || !jsTruthy patientId)
          = true := by
        rcases h with h | h | h <;> simp [h]
      unfold anemiaDetectionPOST
      rw [if_pos hcond]
    · rintro ⟨h1, h2, h3⟩
      have hcond : ¬((!image.isSome || !jsTruthy analysisType || !jsTruthy patientId)
          = true) := by
        simp [h1, h2, h3]
      unfold anemiaDetectionPOST
      rw [if_neg hcond]
      cases db <;> simp

/-- C3 amended, witness: the pid-less health body with a successful store,
the image-less anemia form rejected, and a complete anemia form accepted. -/
theorem claim_C3_amended_witness :
    (healthRecordsPOST sampleHealthBodyNoPid (.ok sampleStoredHealth)).status ≠ 400 ∧
    anemiaDetectionPOST none none (some "p1") (3/10) (1/2) (.ok sampleNonAnemic) =
      { gatewayWrite := none, status := 400, payload := none } ∧
    (anemiaDetectionPOST (some "imgbytes") (some "eye_anemia") (some "p1")
      (3/10) (1/2) (.ok sampleNonAnemic)).status ≠ 400 :=
  ⟨(claim_C3_amended.1 sampleHealthBodyNoPid (.ok sampleStoredHealth)).2,
   (claim_C3_amended.2 none none (some "p1") (3/10) (1/2)
     (.ok sampleNonAnemic)).1 (Or.inl rfl),
   ((claim_C3_amended.2 (some "imgbytes") (some "eye_anemia") (some "p1")
     (3/10) (1/2) (.ok sampleNonAnemic)).2 ⟨rfl, by decide, by decide⟩).2⟩

end HealthAI
